import Mathlib

/-!
Shallow embedding of the two diagnostic scripts of this repository:

* `check_embeddings.py` — fetches a page of document chunks and the set of
  document ids from a REST store, then scans the chunks for missing, unparsable,
  wrongly-dimensioned or invalid embeddings and for dangling document references,
  printing one diagnostic line per violation.
* `check_migration.py` — structural checker; here we model
  `check_table_structure`, which reports the column list of a table.

Python values returned by `resp.json()` / `json.loads` are modelled by the
`Json` type below.  Python numbers (int and float alike — both satisfy
`isinstance(x, (int, float))`) are modelled exactly by `JNum`: a finite value is
a rational (the value a parsed numeric literal denotes), and the special floats
NaN / Infinity / -Infinity (which Python's `json.loads` accepts) get their own
constructors, since the script tests `x != x` and `abs(x) > 1e6` on them.

The network boundary (`requests.get`) is modelled by `FetchResult`: a call
either fails in transport or yields a final response with a status code and a
body.  `Response.raise_for_status` of the requests library raises `HTTPError`
exactly for status codes in [400, 600); `resp.json()` raises if the body is not
valid JSON.  The standard-library JSON parser `json.loads` is abstracted as a
parameter `loads : String → Except String Json` (the control flow of the script
never depends on its internals), and the findings the script prints are
reified as the `Finding` type.
-/

/-- A Python number as delivered by the JSON decoder: an exact finite value
(int or float literal) or one of the special floats the decoder accepts. -/
inductive JNum where
  | finite (q : ℚ)
  | nan
  | inf
  | ninf
  deriving DecidableEq

/-- A decoded JSON value (the result of `resp.json()` or `json.loads`). -/
inductive Json where
  | null
  | bool (b : Bool)
  | num (n : JNum)
  | str (s : String)
  | arr (elems : List Json)
  | obj (members : List (String × Json))

mutual

def jsonDecEq (a b : Json) : Decidable (a = b) := by
  cases a <;> cases b <;>
    try { apply Decidable.isFalse ; intro h ; injection h }
  case null.null => exact Decidable.isTrue rfl
  case bool.bool x y =>
    exact if h : x = y then Decidable.isTrue (by rw [h])
      else Decidable.isFalse (by intro hc ; injection hc ; contradiction)
  case num.num x y =>
    exact if h : x = y then Decidable.isTrue (by rw [h])
      else Decidable.isFalse (by intro hc ; injection hc ; contradiction)
  case str.str x y =>
    exact if h : x = y then Decidable.isTrue (by rw [h])
      else Decidable.isFalse (by intro hc ; injection hc ; contradiction)
  case arr.arr xs ys =>
    exact match jsonDecEqList xs ys with
      | Decidable.isTrue h => Decidable.isTrue (by rw [h])
      | Decidable.isFalse _ =>
        Decidable.isFalse (by intro hc ; injection hc ; contradiction)
  case obj.obj xs ys =>
    exact match jsonDecEqObj xs ys with
      | Decidable.isTrue h => Decidable.isTrue (by rw [h])
      | Decidable.isFalse _ =>
        Decidable.isFalse (by intro hc ; injection hc ; contradiction)

def jsonDecEqList (xs ys : List Json) : Decidable (xs = ys) :=
  match xs, ys with
  | [], [] => Decidable.isTrue rfl
  | _ :: _, [] => Decidable.isFalse (by intro h ; injection h)
  | [], _ :: _ => Decidable.isFalse (by intro h ; injection h)
  | x :: xs, y :: ys =>
    match jsonDecEq x y, jsonDecEqList xs ys with
    | Decidable.isTrue h₁, Decidable.isTrue h₂ => Decidable.isTrue (by rw [h₁, h₂])
    | Decidable.isFalse _, _ =>
      Decidable.isFalse (by intro h ; injection h ; contradiction)
    | _, Decidable.isFalse _ =>
      Decidable.isFalse (by intro h ; injection h ; contradiction)

def jsonDecEqObj (xs ys : List (String × Json)) : Decidable (xs = ys) :=
  match xs, ys with
  | [], [] => Decidable.isTrue rfl
  | _ :: _, [] => Decidable.isFalse (by intro h ; injection h)
  | [], _ :: _ => Decidable.isFalse (by intro h ; injection h)
  | (k₁, v₁) :: xs, (k₂, v₂) :: ys =>
    match (inferInstance : DecidableEq String) k₁ k₂, jsonDecEq v₁ v₂,
        jsonDecEqObj xs ys with
    | Decidable.isTrue h₁, Decidable.isTrue h₂, Decidable.isTrue h₃ =>
      Decidable.isTrue (by rw [h₁, h₂, h₃])
    | Decidable.isFalse hne, _, _ =>
      Decidable.isFalse (by
        intro h ; injection h with h1 _ ; injection h1 with hk _ ; exact hne hk)
    | _, Decidable.isFalse hne, _ =>
      Decidable.isFalse (by
        intro h ; injection h with h1 _ ; injection h1 with _ hv ; exact hne hv)
    | _, _, Decidable.isFalse hne =>
      Decidable.isFalse (by intro h ; injection h with _ h2 ; exact hne h2)

end

instance : DecidableEq Json := jsonDecEq

deriving instance DecidableEq for Except

/-- Python exceptions that the embedding checker can raise or propagate. -/
inductive PyErr where
  | typeError (msg : String)
  | keyError (key : String)
  | httpError (status : Nat)
  | jsonDecodeError (msg : String)
  | transportError (msg : String)
  deriving DecidableEq

/-- The diagnostic lines `check_embeddings` prints, reified: one constructor per
`print` statement in the scan loop, carrying the interpolated data. -/
inductive Finding where
  | missingEmbedding (chunkId : Json)
  | unparsableEmbedding (chunkId : Json) (reason : String)
  | dimensionMismatch (chunkId : Json) (actualLength : Nat)
  | invalidValues (chunkId : Json)
  | orphanedChunk (chunkId : Json) (docRef : Json)
  deriving DecidableEq

/-- A row of `document_chunks` as returned by the query
`select=id,embedding,document_id`: the three projected fields are present and
each holds an arbitrary JSON value (possibly null). -/
structure ChunkRow where
  id : Json
  embedding : Json
  document_id : Json
  deriving DecidableEq

/-- A row of `documents` as returned by the query `select=id`. -/
structure DocRow where
  id : Json
  deriving DecidableEq

/-- Python `len(v)` on a decoded JSON value: defined for lists, strings and
dicts, a `TypeError` (`none`) on None, booleans and numbers. -/
def pyLen : Json → Option Nat
  | Json.str s => some s.length
  | Json.arr xs => some xs.length
  | Json.obj kvs => some kvs.length
  | _ => none

/-- Python iteration `for x in v` on a decoded JSON value: a list yields its
elements, a string its one-character substrings, a dict its keys; None,
booleans and numbers are not iterable (`none`, a `TypeError`). -/
def pyIter : Json → Option (List Json)
  | Json.str s => some (s.data.map (fun c => Json.str (String.singleton c)))
  | Json.arr xs => some xs
  | Json.obj kvs => some (kvs.map (fun kv => Json.str kv.1))
  | _ => none

/-- The per-element test of check_embeddings.py line 59:
`not isinstance(x, (int, float)) or x != x or abs(x) > 1e6`.
Python booleans satisfy `isinstance(x, int)`, equal themselves and have
absolute value at most 1, so they are not flagged; `x != x` holds exactly for
NaN; `abs(x) > 1e6` holds for the infinities and for finite values of
magnitude strictly above 10^6. -/
def badValue : Json → Bool
  | Json.num (JNum.finite q) => decide ((1000000 : ℚ) < |q|)
  | Json.num JNum.nan => true
  | Json.num JNum.inf => true
  | Json.num JNum.ninf => true
  | Json.bool _ => false
  | _ => true

/-- The negation of the condition of check_embeddings.py line 55: the parsed
embedding is a Python list of exactly the expected length. -/
def dimensionOk (dim : Nat) : Json → Bool
  | Json.arr xs => decide (xs.length = dim)
  | _ => false

/-- Lines 44–52: the embedding may be stored as a stringified list, in which
case it is passed through `json.loads` (abstracted as `loads`); any other
value is taken as already parsed. -/
def parseEmbedding (loads : String → Except String Json) : Json → Except String Json
  | Json.str s => loads s
  | e => Except.ok e

/-- Lines 54–64, the checks applied to a parsed embedding `embList`.  Line 55
fires when `embList` is not a list of exactly the expected length; line 56 then
evaluates `len(emb_list)` inside the message f-string, so a parsed embedding
with no `len` (a number, boolean or None) raises `TypeError` there, before
anything is printed.  A value that survives line 56 has a `len` and hence is
iterable, so the `any(...)` of line 59 cannot raise.  The dimension finding,
the value finding and the orphan finding are printed in this order. -/
def scanParsed (dim : Nat) (docIds : Finset Json) (cid doc_id : Json)
    (embList : Json) : Except PyErr (List Finding) :=
  match (if dimensionOk dim embList then some [] else
      (pyLen embList).map fun n => [Finding.dimensionMismatch cid n]) with
  | none => Except.error (PyErr.typeError "object of this type has no len")
  | some dimFindings =>
    match pyIter embList with
    | none => Except.error (PyErr.typeError "object of this type is not iterable")
    | some elems =>
      Except.ok (dimFindings
        ++ (if elems.any badValue then [Finding.invalidValues cid] else [])
        ++ (if doc_id ∈ docIds then [] else
            [Finding.orphanedChunk cid doc_id]))

/-- The body of the scan loop, check_embeddings.py lines 33–64, for one chunk.
Returns the findings printed for this chunk, or the exception that aborts the
run: line 39 (missing embedding, `continue`), lines 44–52 (parse, `continue`
on failure), then the remaining checks of `scanParsed`. -/
def checkChunk (loads : String → Except String Json) (dim : Nat)
    (docIds : Finset Json) (c : ChunkRow) : Except PyErr (List Finding) :=
  match c.embedding with
  | Json.null => Except.ok [Finding.missingEmbedding c.id]
  | emb =>
    match parseEmbedding loads emb with
    | Except.error reason => Except.ok [Finding.unparsableEmbedding c.id reason]
    | Except.ok embList => scanParsed dim docIds c.id c.document_id embList

/-- The findings a per-chunk step actually printed: an aborting step printed
none, because the `TypeError` of line 56 is raised while the message is being
formatted, before anything is written. -/
def findingsOf : Except PyErr (List Finding) → List Finding
  | Except.ok fs => fs
  | Except.error _ => []

/-- The loop of lines 33–64 over the whole fetched page, in fetch order:
the findings printed before the run ended, paired with the exception that
aborted it, if any. -/
def validate (loads : String → Except String Json) (dim : Nat) (docIds : Finset Json) :
    List ChunkRow → List Finding × Option PyErr
  | [] => ([], none)
  | c :: rest =>
    match checkChunk loads dim docIds c with
    | Except.error e => ([], some e)
    | Except.ok fs =>
      let r := validate loads dim docIds rest
      (fs ++ r.1, r.2)

/-- The outcome of one `requests.get` call: a transport-level failure, or a
final response carrying a status code and the outcome of decoding its body as
JSON (what `resp.json()` would return). -/
inductive FetchResult (α : Type) where
  | transportFailure (msg : String)
  | response (status : Nat) (body : Except String α)

/-- `Response.raise_for_status` of the requests library: raises `HTTPError`
exactly for status codes in [400, 600) (4xx client errors and 5xx server
errors); any other status, 2xx or not, passes. -/
def raise_for_status (status : Nat) : Except PyErr Unit :=
  if 400 ≤ status ∧ status < 600 then Except.error (PyErr.httpError status)
  else Except.ok ()

/-- Shared shape of lines 9–17 and 19–26: perform the GET, call
`raise_for_status`, then decode the body; every failure propagates. -/
def fetchJson {α : Type} : FetchResult α → Except PyErr α
  | FetchResult.transportFailure m => Except.error (PyErr.transportError m)
  | FetchResult.response status body =>
    match raise_for_status status with
    | Except.error e => Except.error e
    | Except.ok _ =>
      match body with
      | Except.error m => Except.error (PyErr.jsonDecodeError m)
      | Except.ok a => Except.ok a

/-- check_embeddings.py lines 9–17: fetch one page of chunk rows. -/
def fetch_chunks (net : FetchResult (List ChunkRow)) : Except PyErr (List ChunkRow) :=
  fetchJson net

/-- check_embeddings.py lines 19–27: fetch the document rows and collect their
ids into a set (`set(doc['id'] for doc in resp.json())`). -/
def fetch_document_ids (net : FetchResult (List DocRow)) : Except PyErr (Finset Json) :=
  match fetchJson net with
  | Except.error e => Except.error e
  | Except.ok rows => Except.ok ((rows.map DocRow.id).toFinset)

/-- check_embeddings.py line 7. -/
def EXPECTED_DIM : Nat := 1536

/-- check_embeddings.py lines 29–66: the whole run, as a function of the two
network outcomes.  A fetch failure propagates out of `check_embeddings`
uncaught, before any chunk is examined. -/
def check_embeddings (loads : String → Except String Json)
    (netChunks : FetchResult (List ChunkRow)) (netDocs : FetchResult (List DocRow)) :
    List Finding × Option PyErr :=
  match fetch_chunks netChunks with
  | Except.error e => ([], some e)
  | Except.ok chunks =>
    match fetch_document_ids netDocs with
    | Except.error e => ([], some e)
    | Except.ok docIds => validate loads EXPECTED_DIM docIds chunks

/-- A result row of a `select("*")` query in check_migration.py: an ordered
association of column names to values (`response.data[0]` is a dict whose key
order is the column order). -/
abbrev TableRow := List (String × Json)

/-- The value `check_table_structure` returns: a dict with `status: success`
and the column list, or `status: error` and the message. -/
inductive StructureReport where
  | success (columns : List String)
  | error (msg : String)
  deriving DecidableEq

/-- check_migration.py lines 62–67: the hardcoded fallback column lists, a
dict lookup with default `[]` for unknown table names. -/
def fallbackColumns (table_name : String) : List String :=
  if table_name = "legal_documents" then
    ["id", "title", "content", "document_type", "source_url", "publication_date",
     "created_at", "updated_at"]
  else if table_name = "legal_changes" then
    ["id", "document_id", "change_type", "description", "impact_level",
     "detected_at", "created_at", "updated_at"]
  else if table_name = "contracts" then
    ["id", "contract_name", "content", "contract_type", "risk_level",
     "last_reviewed", "created_at", "updated_at"]
  else if table_name = "contract_impacts" then
    ["id", "contract_id", "change_id", "impact_description", "action_required",
     "priority_level", "created_at", "updated_at"]
  else []

/-- check_migration.py lines 51–78: examine a table's structure from the result
of `select("*").limit(1)`.  A raised query error is caught and reported; with a
nonempty result the columns are the first row's keys; with an empty result the
columns are the hardcoded fallback for the table name. -/
def check_table_structure (queryResult : Except String (List TableRow))
    (table_name : String) : StructureReport :=
  match queryResult with
  | Except.error e => StructureReport.error e
  | Except.ok data =>
    match data with
    | [] => StructureReport.success (fallbackColumns table_name)
    | row :: _ => StructureReport.success (row.map Prod.fst)

theorem checkChunk_of_parsed (loads : String → Except String Json) (dim : Nat)
    (docIds : Finset Json) (c : ChunkRow) (v : Json)
    (hnn : c.embedding ≠ Json.null)
    (hp : parseEmbedding loads c.embedding = Except.ok v) :
    checkChunk loads dim docIds c = scanParsed dim docIds c.id c.document_id v := by
  obtain ⟨i, emb, d⟩ := c
  cases emb <;> simp_all [checkChunk, parseEmbedding]

/-- Claim C3: a chunk whose embedding field is null yields exactly the one
`MissingEmbedding` finding; the parse, dimension, value and orphan checks do
not run for it (the loop body `continue`s at line 41). -/
theorem null_embedding_yields_single_missing_finding
    (loads : String → Except String Json) (dim : Nat) (docIds : Finset Json)
    (i d : Json) :
    checkChunk loads dim docIds ⟨i, Json.null, d⟩
      = Except.ok [Finding.missingEmbedding i] := rfl

/-- Claim C4: a chunk whose embedding is stored as text on which the JSON
parse fails yields exactly the one `UnparsableEmbedding` finding carrying the
failure reason; the dimension, value and orphan checks do not run for it and
the failure is caught (line 50), not propagated. -/
theorem unparsable_embedding_yields_single_finding
    (loads : String → Except String Json) (dim : Nat) (docIds : Finset Json)
    (i d : Json) (s reason : String)
    (h : loads s = Except.error reason) :
    checkChunk loads dim docIds ⟨i, Json.str s, d⟩
      = Except.ok [Finding.unparsableEmbedding i reason] := by
  simp [checkChunk, parseEmbedding, h]

theorem unparsable_embedding_yields_single_finding_witness :
    (fun _ => Except.error "Expecting value" : String → Except String Json) "oops"
        = Except.error "Expecting value" ∧
    checkChunk (fun _ => Except.error "Expecting value") 1536 ∅
        ⟨Json.str "c1", Json.str "oops", Json.str "d1"⟩
      = Except.ok [Finding.unparsableEmbedding (Json.str "c1") "Expecting value"] :=
  ⟨rfl, unparsable_embedding_yields_single_finding _ 1536 ∅ _ _ _ _ rfl⟩

/-- Claim C1 is contradicted by the code: a chunk whose embedding parses to a
present, non-sequence value with no Python `len` — here the stored text "5",
which parses to the number 5 — makes line 56 raise `TypeError` while the
mismatch message is being formatted, so no `DimensionMismatch` finding is
emitted and the value and orphan checks never run for that chunk. -/
theorem dimension_message_crashes_on_unsized_value :
    checkChunk (fun s => if s = "5" then Except.ok (Json.num (JNum.finite 5))
        else Except.error "Expecting value") 1536 ∅
      ⟨Json.str "c1", Json.str "5", Json.str "d1"⟩
      = Except.error (PyErr.typeError "object of this type has no len") := by
  decide

/-- Claim C2 is contradicted by the code: a chunk whose embedding field holds
the number 5 (present, nothing to parse, not a list) makes the dimension step
raise `TypeError` at line 56; the exception propagates out of
`check_embeddings`, ending the run — the chunk after it is never scanned. -/
theorem scan_aborts_on_numeric_embedding :
    check_embeddings (fun _ => Except.error "Expecting value")
      (FetchResult.response 200 (Except.ok
        [⟨Json.str "c1", Json.null, Json.str "d1"⟩,
         ⟨Json.str "c2", Json.num (JNum.finite 5), Json.str "d1"⟩,
         ⟨Json.str "c3", Json.null, Json.str "d1"⟩]))
      (FetchResult.response 200 (Except.ok [⟨Json.str "d1"⟩]))
      = ([Finding.missingEmbedding (Json.str "c1")],
         some (PyErr.typeError "object of this type has no len")) := by
  decide

theorem invalid_values_mem_scanParsed (dim : Nat) (docIds : Finset Json)
    (cid did : Json) (v : Json) :
    Finding.invalidValues cid ∈ findingsOf (scanParsed dim docIds cid did v)
      ↔ ∃ x ∈ (pyIter v).getD [], badValue x = true := by
  cases v with
  | null => simp [scanParsed, findingsOf, pyIter, pyLen, dimensionOk]
  | bool b => simp [scanParsed, findingsOf, pyIter, pyLen, dimensionOk]
  | num n => simp [scanParsed, findingsOf, pyIter, pyLen, dimensionOk]
  | str s =>
    simp only [scanParsed, findingsOf, pyLen, pyIter, dimensionOk, Option.map_some']
    split_ifs <;> simp_all [List.any_eq_true]
  | arr xs =>
    simp only [scanParsed, findingsOf, pyLen, pyIter, dimensionOk, Option.map_some']
    split_ifs <;> simp_all [List.any_eq_true]
  | obj kvs =>
    simp only [scanParsed, findingsOf, pyLen, pyIter, dimensionOk, Option.map_some']
    split_ifs <;> simp_all [List.any_eq_true] <;> try assumption

/-- Claim C5: for a chunk with a present, parseable embedding, an
`InvalidValues` finding is printed exactly when some element produced by
iterating the parsed value is non-numeric, NaN, or of absolute value above
the 1e6 bound (the line-59 test). -/
theorem invalid_values_iff_bad_element (loads : String → Except String Json)
    (dim : Nat) (docIds : Finset Json) (c : ChunkRow) (v : Json)
    (hnn : c.embedding ≠ Json.null)
    (hp : parseEmbedding loads c.embedding = Except.ok v) :
    Finding.invalidValues c.id ∈ findingsOf (checkChunk loads dim docIds c)
      ↔ ∃ x ∈ (pyIter v).getD [], badValue x = true := by
  rw [checkChunk_of_parsed loads dim docIds c v hnn hp]
  exact invalid_values_mem_scanParsed dim docIds c.id c.document_id v

theorem invalid_values_iff_bad_element_witness :
    ((Json.arr [Json.num JNum.nan] : Json) ≠ Json.null) ∧
    parseEmbedding (fun _ => Except.error "nope") (Json.arr [Json.num JNum.nan])
        = Except.ok (Json.arr [Json.num JNum.nan]) ∧
    (Finding.invalidValues (Json.str "c") ∈ findingsOf (checkChunk
        (fun _ => Except.error "nope") 1536 ∅
        ⟨Json.str "c", Json.arr [Json.num JNum.nan], Json.str "d"⟩)
      ↔ ∃ x ∈ (pyIter (Json.arr [Json.num JNum.nan])).getD [], badValue x = true) :=
  ⟨by decide, rfl,
    invalid_values_iff_bad_element (fun _ => Except.error "nope") 1536 ∅
      ⟨Json.str "c", Json.arr [Json.num JNum.nan], Json.str "d"⟩
      (Json.arr [Json.num JNum.nan]) (by decide) rfl⟩

/-- Claim C6: with expected dimension 3, a chunk whose embedding is the list
[1.0, NaN] and whose document reference resolves yields exactly two findings,
in order: a `DimensionMismatch` carrying actual length 2, then an
`InvalidValues`; the dimension failure does not suppress the value check. -/
theorem dim3_nan_chunk_two_findings (loads : String → Except String Json) :
    checkChunk loads 3 ({Json.str "doc-1"} : Finset Json)
      ⟨Json.str "C", Json.arr [Json.num (JNum.finite 1), Json.num JNum.nan],
        Json.str "doc-1"⟩
      = Except.ok [Finding.dimensionMismatch (Json.str "C") 2,
          Finding.invalidValues (Json.str "C")] := rfl

theorem orphan_mem_scanParsed (dim : Nat) (docIds : Finset Json)
    (cid did : Json) (v : Json) (elems : List Json)
    (hiter : pyIter v = some elems) :
    Finding.orphanedChunk cid did ∈ findingsOf (scanParsed dim docIds cid did v)
      ↔ did ∉ docIds := by
  cases v with
  | null => simp [pyIter] at hiter
  | bool b => simp [pyIter] at hiter
  | num n => simp [pyIter] at hiter
  | str s =>
    simp only [scanParsed, findingsOf, pyLen, pyIter, dimensionOk, Option.map_some']
    split_ifs <;> simp_all
  | arr xs =>
    simp only [scanParsed, findingsOf, pyLen, pyIter, dimensionOk, Option.map_some']
    split_ifs <;> simp_all
  | obj kvs =>
    simp only [scanParsed, findingsOf, pyLen, pyIter, dimensionOk, Option.map_some']
    split_ifs <;> simp_all

/-- Claim C7: `fetch_document_ids` collects the fetched documents' ids into a
set — a value is a member exactly when some fetched row carries it as its id —
and a chunk that reaches the orphan check (present embedding, successful
parse, iterable parsed value) gets an `OrphanedChunk` finding carrying its id
and document reference exactly when that reference is not in the set. -/
theorem document_id_set_and_orphan_check :
    (∀ (rows : List DocRow) (ids : Finset Json) (x : Json),
        fetch_document_ids (FetchResult.response 200 (Except.ok rows))
            = Except.ok ids →
        (x ∈ ids ↔ ∃ r ∈ rows, r.id = x)) ∧
    (∀ (loads : String → Except String Json) (dim : Nat) (docIds : Finset Json)
        (c : ChunkRow) (v : Json) (elems : List Json),
        c.embedding ≠ Json.null →
        parseEmbedding loads c.embedding = Except.ok v →
        pyIter v = some elems →
        (Finding.orphanedChunk c.id c.document_id
            ∈ findingsOf (checkChunk loads dim docIds c)
          ↔ c.document_id ∉ docIds)) := by
  constructor
  · intro rows ids x h
    have hrfl : fetch_document_ids (FetchResult.response 200 (Except.ok rows))
        = Except.ok ((rows.map DocRow.id).toFinset) := rfl
    rw [hrfl] at h
    injection h with h2
    subst h2
    simp [List.mem_toFinset, List.mem_map]
  · intro loads dim docIds c v elems hnn hp hiter
    rw [checkChunk_of_parsed loads dim docIds c v hnn hp]
    exact orphan_mem_scanParsed dim docIds c.id c.document_id v elems hiter

theorem document_id_set_and_orphan_check_witness :
    (fetch_document_ids (FetchResult.response 200 (Except.ok [⟨Json.str "d1"⟩]))
        = Except.ok (([⟨Json.str "d1"⟩] : List DocRow).map DocRow.id).toFinset) ∧
    (Json.str "d2" ∈ (([⟨Json.str "d1"⟩] : List DocRow).map DocRow.id).toFinset
      ↔ ∃ r ∈ ([⟨Json.str "d1"⟩] : List DocRow), r.id = Json.str "d2") ∧
    ((Json.arr [] : Json) ≠ Json.null) ∧
    (pyIter (Json.arr []) = some []) ∧
    (Finding.orphanedChunk (Json.str "c") (Json.str "d")
        ∈ findingsOf (checkChunk (fun _ => Except.error "nope") 1536 ∅
            ⟨Json.str "c", Json.arr [], Json.str "d"⟩)
      ↔ Json.str "d" ∉ (∅ : Finset Json)) :=
  ⟨rfl,
   document_id_set_and_orphan_check.1 [⟨Json.str "d1"⟩] _ (Json.str "d2") rfl,
   by decide, rfl,
   document_id_set_and_orphan_check.2 (fun _ => Except.error "nope") 1536 ∅
     ⟨Json.str "c", Json.arr [], Json.str "d"⟩ (Json.arr []) [] (by decide) rfl rfl⟩

/-- Claim C8 as stated is false on the code: `raise_for_status` raises only
for status codes in [400, 600), so a non-2xx response outside that range —
here a 300 whose body decodes as JSON — is accepted, the run completes, and
findings are produced. -/
theorem non_2xx_response_is_not_fatal :
    check_embeddings (fun _ => Except.error "nope")
      (FetchResult.response 300
        (Except.ok [⟨Json.str "c1", Json.null, Json.str "d1"⟩]))
      (FetchResult.response 200 (Except.ok []))
      = ([Finding.missingEmbedding (Json.str "c1")], none) := by
  decide

/-- Claim C8, amended: for every transport failure and every error-status
(4xx or 5xx) response in `fetch_chunks` or `fetch_document_ids`, the fetch
propagates the originating error and the run ends immediately with no
findings for any chunk; each network call is made exactly once, so no retry
is performed. -/
theorem fetch_failure_ends_run_without_findings
    (loads : String → Except String Json)
    (netChunks : FetchResult (List ChunkRow)) (netDocs : FetchResult (List DocRow)) :
    (∀ m, fetch_chunks (FetchResult.transportFailure m)
        = Except.error (PyErr.transportError m)) ∧
    (∀ (s : Nat) (b : Except String (List ChunkRow)), 400 ≤ s → s < 600 →
        fetch_chunks (FetchResult.response s b) = Except.error (PyErr.httpError s)) ∧
    (∀ m, fetch_document_ids (FetchResult.transportFailure m)
        = Except.error (PyErr.transportError m)) ∧
    (∀ (s : Nat) (b : Except String (List DocRow)), 400 ≤ s → s < 600 →
        fetch_document_ids (FetchResult.response s b)
          = Except.error (PyErr.httpError s)) ∧
    (∀ e, fetch_chunks netChunks = Except.error e →
        check_embeddings loads netChunks netDocs = ([], some e)) ∧
    (∀ e chunks, fetch_chunks netChunks = Except.ok chunks →
        fetch_document_ids netDocs = Except.error e →
        check_embeddings loads netChunks netDocs = ([], some e)) := by
  refine ⟨fun m => rfl, ?_, fun m => rfl, ?_, ?_, ?_⟩
  · intro s b h1 h2
    simp [fetch_chunks, fetchJson, raise_for_status, h1, h2]
  · intro s b h1 h2
    simp [fetch_document_ids, fetchJson, raise_for_status, h1, h2]
  · intro e he
    simp [check_embeddings, he]
  · intro e chunks hc hd
    simp [check_embeddings, hc, hd]

theorem fetch_failure_ends_run_without_findings_witness :
    (400 ≤ 503 ∧ 503 < 600) ∧
    fetch_chunks (FetchResult.response 503 (Except.ok []))
        = Except.error (PyErr.httpError 503) ∧
    fetch_chunks (FetchResult.transportFailure "ConnectionError")
        = Except.error (PyErr.transportError "ConnectionError") ∧
    check_embeddings (fun _ => Except.error "nope")
        (FetchResult.transportFailure "ConnectionError")
        (FetchResult.response 200 (Except.ok []))
      = ([], some (PyErr.transportError "ConnectionError")) :=
  ⟨by decide,
   (fetch_failure_ends_run_without_findings (fun _ => Except.error "nope")
       (FetchResult.transportFailure "x")
       (FetchResult.response 200 (Except.ok []))).2.1 503 (Except.ok [])
     (by decide) (by decide),
   rfl,
   (fetch_failure_ends_run_without_findings (fun _ => Except.error "nope")
       (FetchResult.transportFailure "ConnectionError")
       (FetchResult.response 200 (Except.ok []))).2.2.2.2.1
     (PyErr.transportError "ConnectionError") rfl⟩

/-- Claim C9: the scan is deterministic in its inputs — two runs of the
validation pass over the same fetched chunk list and the same document-id set
produce identical finding sequences, in the same order, and the same aborting
exception, if any. -/
theorem validate_deterministic (loads : String → Except String Json) (dim : Nat)
    (docIds₁ docIds₂ : Finset Json) (chunks₁ chunks₂ : List ChunkRow)
    (hc : chunks₁ = chunks₂) (hd : docIds₁ = docIds₂) :
    validate loads dim docIds₁ chunks₁ = validate loads dim docIds₂ chunks₂ := by
  rw [hc, hd]

theorem validate_deterministic_witness :
    ([⟨Json.str "c", Json.null, Json.str "d"⟩] : List ChunkRow)
        = [⟨Json.str "c", Json.null, Json.str "d"⟩] ∧
    (∅ : Finset Json) = ∅ ∧
    validate (fun _ => Except.error "nope") 1536 ∅
        [⟨Json.str "c", Json.null, Json.str "d"⟩]
      = validate (fun _ => Except.error "nope") 1536 ∅
        [⟨Json.str "c", Json.null, Json.str "d"⟩] :=
  ⟨rfl, rfl,
   validate_deterministic (fun _ => Except.error "nope") 1536 ∅ ∅
     [⟨Json.str "c", Json.null, Json.str "d"⟩]
     [⟨Json.str "c", Json.null, Json.str "d"⟩] rfl rfl⟩

/-- Claim C10: when the structure query succeeds with zero rows,
`check_table_structure` reports status success with the hardcoded column
list — the four known tables get their fixed lists and any other table name
gets the empty list — rather than columns read from the database. -/
theorem empty_result_reports_hardcoded_columns (t : String) :
    check_table_structure (Except.ok []) t
        = StructureReport.success (fallbackColumns t) ∧
    check_table_structure (Except.ok []) "legal_documents"
        = StructureReport.success ["id", "title", "content", "document_type",
            "source_url", "publication_date", "created_at", "updated_at"] ∧
    check_table_structure (Except.ok []) "legal_changes"
        = StructureReport.success ["id", "document_id", "change_type",
            "description", "impact_level", "detected_at", "created_at",
            "updated_at"] ∧
    check_table_structure (Except.ok []) "contracts"
        = StructureReport.success ["id", "contract_name", "content",
            "contract_type", "risk_level", "last_reviewed", "created_at",
            "updated_at"] ∧
    check_table_structure (Except.ok []) "contract_impacts"
        = StructureReport.success ["id", "contract_id", "change_id",
            "impact_description", "action_required", "priority_level",
            "created_at", "updated_at"] ∧
    (t ≠ "legal_documents" → t ≠ "legal_changes" → t ≠ "contracts" →
      t ≠ "contract_impacts" →
      check_table_structure (Except.ok []) t = StructureReport.success []) := by
  refine ⟨rfl, rfl, rfl, rfl, rfl, ?_⟩
  intro h1 h2 h3 h4
  simp [check_table_structure, fallbackColumns, h1, h2, h3, h4]

theorem empty_result_reports_hardcoded_columns_witness :
    ("audit_log" ≠ "legal_documents") ∧ ("audit_log" ≠ "legal_changes") ∧
    ("audit_log" ≠ "contracts") ∧ ("audit_log" ≠ "contract_impacts") ∧
    check_table_structure (Except.ok []) "audit_log"
      = StructureReport.success [] :=
  ⟨by decide, by decide, by decide, by decide,
   (empty_result_reports_hardcoded_columns "audit_log").2.2.2.2.2
     (by decide) (by decide) (by decide) (by decide)⟩
